import Mathlib

/-!
Verification development for the job-requirements extraction pipeline
(`src/job_requirements_extractor/extractor.py`).

Strings are modelled as `List Char`.  Python's character classes
(`str.strip`, `str.lower`, `str.isalpha`, the regex classes `\s`, `\d`,
`\w`) are modelled by ASCII predicates on code points; every input and
vocabulary word appearing in the program is ASCII apart from the bullet
glyph `•`, on which Python and this model agree for all the operations
used.  Python floats are modelled as exact rationals (`ℚ`); the program
only adds, multiplies, divides and compares them.
-/

set_option maxRecDepth 20000

/-! ## Character-level primitives -/

/-- Python whitespace (`\s`, `str.strip`, `str.split`) restricted to ASCII:
space, tab, newline, carriage return, vertical tab, form feed. -/
def pyIsSpace (c : Char) : Bool :=
  c == ' ' || c == '\t' || c == '\n' || c == '\r' ||
  decide (c.toNat = 11) || decide (c.toNat = 12)

/-- ASCII uppercase letter, as used by Python `str.upper`/`str.lower`. -/
def pyIsUpper (c : Char) : Bool := decide (65 ≤ c.toNat ∧ c.toNat ≤ 90)

/-- ASCII lowercase letter. -/
def pyIsLower (c : Char) : Bool := decide (97 ≤ c.toNat ∧ c.toNat ≤ 122)

/-- Python `str.lower` on a single character (ASCII part). -/
def pyToLower (c : Char) : Char :=
  if pyIsUpper c then Char.ofNat (c.toNat + 32) else c

/-- Python `str.upper` on a single character (ASCII part). -/
def pyToUpper (c : Char) : Char :=
  if pyIsLower c then Char.ofNat (c.toNat - 32) else c

/-- Python `str.isalpha` (ASCII part). -/
def pyIsAlphaCh (c : Char) : Bool := pyIsUpper c || pyIsLower c

/-- The regex class `\d` (ASCII digits). -/
def pyIsDigitCh (c : Char) : Bool := decide (48 ≤ c.toNat ∧ c.toNat ≤ 57)

/-- The regex class `\w` (ASCII part: letters, digits, underscore). -/
def pyIsWordCh (c : Char) : Bool := pyIsAlphaCh c || pyIsDigitCh c || c == '_'

/-- Python `str.strip`: drop leading and trailing whitespace. -/
def strip (l : List Char) : List Char :=
  ((l.dropWhile pyIsSpace).reverse.dropWhile pyIsSpace).reverse

/-- The character class `[-•\*\s\d\.\)]` used by the extractor to strip
leading bullet/number markers (note that it contains whitespace and
digits as well as the marker glyphs). -/
def markerClass (c : Char) : Bool :=
  c == '-' || c == '•' || c == '*' || pyIsSpace c || pyIsDigitCh c ||
  c == '.' || c == ')'

/-- `cleaned[0].upper() + cleaned[1:] if cleaned[0].isalpha() else cleaned`:
capitalize the first character when it is alphabetic. -/
def capitalizeFirst : List Char → List Char
  | [] => []
  | c :: cs => if pyIsAlphaCh c then pyToUpper c :: cs else c :: cs

/-- `re.sub(r'[ \t]+', ' ', text)`: collapse every run of spaces/tabs to a
single space (newlines preserved). -/
def collapseSpaces : List Char → List Char
  | [] => []
  | [c] => if c == ' ' || c == '\t' then [' '] else [c]
  | c :: d :: cs =>
    if c == ' ' || c == '\t' then
      if d == ' ' || d == '\t' then collapseSpaces (d :: cs)
      else ' ' :: collapseSpaces (d :: cs)
    else c :: collapseSpaces (d :: cs)

/-- The character class kept by `_clean_text`:
`[^\w\s\-\.\,\;\:\!\?\(\)•\-\*]` is removed, so these are kept. -/
def allowedChar (c : Char) : Bool :=
  pyIsWordCh c || pyIsSpace c || c == '-' || c == '.' || c == ',' ||
  c == ';' || c == ':' || c == '!' || c == '?' || c == '(' || c == ')' ||
  c == '•' || c == '*'

/-- `_clean_text`: collapse horizontal whitespace, drop disallowed
characters, strip. -/
def cleanText (t : List Char) : List Char :=
  strip ((collapseSpaces t).filter allowedChar)

/-- Python `text.split()`: split on whitespace runs, no empty pieces. -/
def pyWords (t : List Char) : List (List Char) :=
  (List.splitOnP pyIsSpace t).filter (fun w => !w.isEmpty)

/-- Python substring test `needle in hay` for strings. -/
def inStr (needle : List Char) : List Char → Bool
  | [] => needle.isEmpty
  | c :: rest => needle.isPrefixOf (c :: rest) || inStr needle rest

/-- Python `str.lower` on a whole string. -/
def lowerStr (l : List Char) : List Char := l.map pyToLower

/-! ## Regex-split machinery

`re.split` scans left to right for non-overlapping matches of the
pattern and cuts the string there.  The three patterns used by the
program are alternations of `[.!?]+` (a greedy run of sentence
terminators) and the line-leading markers `\n-`, `\n•`, `\n\*`,
`\n\d+\.`, `\n\d+\)`.  A matcher returns the length of the match at the
head of the input, if any.  The alternatives are mutually exclusive on
their first character, and inside `\n\d+\.` / `\n\d+\)` backtracking
within the digit run can never succeed (the character after a proper
prefix of the run is a digit), so taking the maximal digit run is
faithful. -/

/-- Sentence terminators `[.!?]`. -/
def termChar (c : Char) : Bool := c == '.' || c == '!' || c == '?'

/-- Match `[.!?]+` at the head: the maximal nonempty terminator run. -/
def matchTermRun : List Char → Option Nat
  | [] => none
  | c :: cs =>
    if termChar c then some (1 + (cs.takeWhile termChar).length) else none

/-- Match the newline-led alternatives at the head.  `withNum` selects
whether the numbered-list alternatives `\n\d+\.` and `\n\d+\)` are part
of the pattern. -/
def matchNlMarker (withNum : Bool) : List Char → Option Nat
  | '\n' :: rest =>
    match rest with
    | c :: _ =>
      if c == '-' || c == '•' || c == '*' then some 2
      else if withNum && pyIsDigitCh c then
        let ds := rest.takeWhile pyIsDigitCh
        match rest.drop ds.length with
        | d :: _ => if d == '.' || d == ')' then some (1 + ds.length + 1) else none
        | [] => none
      else none
    | [] => none
  | _ => none

/-- Matcher for `[.!?]+|\n-|\n•|\n\*|\n\d+\.|\n\d+\)`
(used by `_extract_text_patterns`). -/
def sentSep (l : List Char) : Option Nat :=
  match matchTermRun l with
  | some n => some n
  | none => matchNlMarker true l

/-- Matcher for `[.!?]+|\n-|\n•|\n\*` (used by `_generate_summary`). -/
def summarySep (l : List Char) : Option Nat :=
  match matchTermRun l with
  | some n => some n
  | none => matchNlMarker false l

/-- Matcher for `[.!?]+` (used by `_calculate_complexity`). -/
def termSep (l : List Char) : Option Nat := matchTermRun l

/-- Prepend a character to the first segment. -/
def consHead (c : Char) : List (List Char) → List (List Char)
  | [] => [[c]]
  | s :: ss => (c :: s) :: ss

/-- Fuelled splitting loop.  Each step consumes at least one character,
so with initial fuel equal to the input length the zero-fuel branch is
unreachable; the fuel only makes the recursion structural. -/
def splitBySepF (m : List Char → Option Nat) : Nat → List Char → List (List Char)
  | _, [] => [[]]
  | 0, _ :: _ => [[]]
  | Nat.succ fuel, c :: cs =>
    match m (c :: cs) with
    | some n => [] :: splitBySepF m fuel (cs.drop (n - 1))
    | none => consHead c (splitBySepF m fuel cs)

/-- `re.split(pattern, t)` for the patterns modelled by `m`. -/
def reSplit (m : List Char → Option Nat) (t : List Char) : List (List Char) :=
  splitBySepF m t.length t

/-! ## Fixed vocabularies (from `JobRequirementsExtractor`) -/

/-- The requirement keywords of `_extract_text_patterns` (identical to
the keyword list re-declared in `_generate_summary`). -/
def requirementKeywords : List (List Char) :=
  (["required", "must", "should", "preferred", "desired", "essential",
    "necessary", "mandatory", "experience", "skills", "knowledge",
    "proficient", "expert", "skilled", "qualified", "background",
    "understanding", "familiarity", "certification", "degree",
    "years", "senior", "junior", "entry", "level"]).map String.data

/-- The exclusion terms of `_extract_text_patterns`. -/
def skipIndicators : List (List Char) :=
  (["we offer", "we provide", "benefits include", "responsibilities",
    "duties", "about us", "company", "team", "culture"]).map String.data

/-- The requirement indicators of `_extract_individual_requirements`
(the keyword set above plus technology names and management keywords;
the source lists `security` twice and the duplicate is kept). -/
def requirementIndicators : List (List Char) :=
  (["required", "must", "should", "preferred", "desired", "essential",
    "necessary", "mandatory", "experience", "skills", "knowledge",
    "proficient", "expert", "skilled", "qualified", "background",
    "understanding", "familiarity", "certification", "degree",
    "years", "senior", "junior", "entry", "level",
    "python", "java", "javascript", "aws", "docker", "kubernetes",
    "sql", "agile", "git", "ci/cd", "api", "machine learning",
    "tensorflow", "pytorch", "microservices", "monitoring", "security",
    "net", "c#", "asp.net", "html", "css", "angular", "ionic",
    "lead", "mentor", "manage", "team", "leadership", "management",
    "foster", "culture", "conduct", "reviews", "planning", "delivery",
    "oversee", "drive", "ensure", "maintain", "champion", "collaborate",
    "liaise", "translate", "requirements", "solutions", "stakeholders",
    "timelines", "sprint", "resource", "allocation", "progress",
    "reporting", "quality", "operations", "reliability", "performance",
    "security", "production", "improvement", "innovation", "processes"]).map String.data

/-- `self.categories`: the category taxonomy hard-coded in
`JobRequirementsExtractor.__init__` (six categories; the eight-category
table in `config.py` is not consulted by the extractor). -/
def categories : List (List Char × List (List Char)) :=
  [ (("experience").data,
      (["years", "experience", "senior", "junior", "entry"]).map String.data),
    (("education").data,
      (["degree", "bachelor", "master", "phd", "certification"]).map String.data),
    (("technical_skills").data,
      (["python", "java", "javascript", "sql", "aws", "docker"]).map String.data),
    (("soft_skills").data,
      (["communication", "leadership", "teamwork", "problem-solving"]).map String.data),
    (("tools").data,
      (["git", "jira", "confluence", "slack", "teams"]).map String.data),
    (("methodologies").data,
      (["agile", "scrum", "waterfall", "kanban"]).map String.data) ]

/-- Technical vocabulary of `_calculate_complexity`. -/
def technicalTerms : List (List Char) :=
  (["api", "database", "algorithm", "framework", "architecture",
    "deployment", "infrastructure"]).map String.data

/-- Recommendation strings of `_generate_recommendations`. -/
def msgTech : List Char :=
  ("Focus on highlighting relevant technical skills in your resume").data

def msgExp : List Char :=
  ("Emphasize relevant work experience and achievements").data

def msgEdu : List Char :=
  ("Ensure your education credentials are clearly stated").data

def msgMany : List Char :=
  ("This job has many requirements - consider if you meet most criteria").data

def msgFewer : List Char :=
  ("This job has fewer requirements - may be more entry-level").data

/-! ## `_extract_text_patterns` -/

/-- `_extract_text_patterns`: split into sentence/bullet segments, keep
stripped segments of length ≥ 10 containing a requirement keyword and no
skip indicator, strip leading markers, capitalize, and take the set of
distinct results (`list(set(...))`; only membership and cardinality of
the result are used by the claims, so the set is modelled as `dedup`). -/
def extractTextPatterns (t : List Char) : List (List Char) :=
  let sentences := reSplit sentSep t
  let reqs := sentences.filterMap (fun s0 =>
    let s := strip s0
    if s.length < 10 then none
    else
      let sl := lowerStr s
      if requirementKeywords.any (fun k => inStr k sl) then
        if skipIndicators.any (fun k => inStr k sl) then none else some s
      else none)
  let cleanedReqs := reqs.filterMap (fun req =>
    let c := (strip req).dropWhile markerClass
    if c.isEmpty then none else some (capitalizeFirst c))
  cleanedReqs.dedup

/-! ## `_extract_individual_requirements` -/

/-- `re.match(r'^[\s]*[-•\*\s\d\.\)]+[\s]*', line)` succeeds exactly when
the first character of the line is in the marker class (whitespace is in
the class, so `[\s]*` may be empty and the class run supplies the
mandatory character). -/
def isBulletPoint : List Char → Bool
  | [] => false
  | c :: _ => markerClass c

/-- `re.match(r'^[\s]{4,}', line)`: at least four leading whitespace
characters. -/
def isIndented (line : List Char) : Bool :=
  decide (4 ≤ (line.takeWhile pyIsSpace).length)

/-- The `cleaned` local of the loop body: the marker-stripping `re.sub`
removes the maximal leading run of marker-class characters, i.e.
`dropWhile markerClass` (the `else` branch, just `line.strip()`, is kept
from the source although indentation implies a bullet-class first
character). -/
def cleanedLine (line : List Char) : List Char :=
  if isBulletPoint line then strip (line.dropWhile markerClass) else strip line

/-- Per-line body of the loop in `_extract_individual_requirements`. -/
def lineCandidate (line : List Char) : Option (List Char) :=
  if (strip line).isEmpty then none
  else if isBulletPoint line || isIndented line then
    if 3 < (cleanedLine line).length then
      if requirementIndicators.any (fun k => inStr k (lowerStr (cleanedLine line))) then
        if (cleanedLine line).isEmpty then none
        else some (capitalizeFirst (cleanedLine line))
      else none
    else none
  else none

/-- `_extract_individual_requirements`: split on newlines and collect the
per-line candidates in order. -/
def extractIndividualRequirements (t : List Char) : List (List Char) :=
  (List.splitOn '\n' t).filterMap lineCandidate

/-! ## `_categorize_requirements` -/

/-- Body of the categorization loop for one candidate and one category.
In the source, each candidate shorter than 10 characters (or empty) is
skipped; a candidate whose lowercase form contains one of the category's
keywords is marker-stripped, capitalized and appended to that category's
list unless already present. -/
def catStep (kws : List (List Char)) (acc : List (List Char)) (req : List Char) :
    List (List Char) :=
  if req.isEmpty || req.length < 10 then acc
  else if kws.any (fun k => inStr k (lowerStr req)) then
    if ((strip req).dropWhile markerClass).isEmpty then acc
    else if capitalizeFirst ((strip req).dropWhile markerClass) ∈ acc then acc
    else acc ++ [capitalizeFirst ((strip req).dropWhile markerClass)]
  else acc

/-- The list accumulated for one category over all candidates.  In the
source the per-candidate loop updates each category's list under its own
key only, so the lists evolve independently and the loops commute. -/
def categoryItems (kws : List (List Char)) (cands : List (List Char)) :
    List (List Char) :=
  cands.foldl (catStep kws) []

/-- `_categorize_requirements` applied to an explicit candidate list:
build every category's list and drop the empty categories (`{k: v for
k, v in categorized.items() if v}`, preserving the key order of the
category table). -/
def categorizeCandidates (cands : List (List Char)) :
    List (List Char × List (List Char)) :=
  (categories.map (fun p => (p.1, categoryItems p.2 cands))).filter
    (fun p => !p.2.isEmpty)

/-- `_categorize_requirements`: the candidates are the list-based
candidates followed by the pattern-based candidates, both computed from
the given (original) text. -/
def categorizeRequirements (t : List Char) : List (List Char × List (List Char)) :=
  categorizeCandidates (extractIndividualRequirements t ++ extractTextPatterns t)

/-! ## `_generate_summary` -/

/-- The summary record returned by `_generate_summary`. -/
structure Summary where
  total_sentences : Nat
  requirement_sentences : Nat
  requirement_density : ℚ
  estimated_requirements : Nat
deriving DecidableEq

/-- The stripped segments of length > 20 used by `_generate_summary`. -/
def summarySentences (t : List Char) : List (List Char) :=
  (reSplit summarySep t).filterMap (fun s0 =>
    let s := strip s0
    if 20 < s.length then some s else none)

/-- `requirement_count` of `_generate_summary`: how many sentences
contain a requirement keyword. -/
def summaryReqCount (t : List Char) : Nat :=
  (summarySentences t).countP
    (fun s => requirementKeywords.any (fun k => inStr k (lowerStr s)))

/-- `_generate_summary`.  The density is `requirement_count /
len(sentences)` when the sentence list is nonempty and `0` otherwise;
the estimate re-runs both extractors on the given text. -/
def generateSummary (t : List Char) : Summary :=
  { total_sentences := (summarySentences t).length
    requirement_sentences := summaryReqCount t
    requirement_density :=
      if (summarySentences t).isEmpty then 0
      else (summaryReqCount t : ℚ) / ((summarySentences t).length : ℚ)
    estimated_requirements :=
      (extractTextPatterns t).length + (extractIndividualRequirements t).length }

/-! ## `_calculate_complexity` -/

/-- Python `min(x, y)` on floats. -/
def ratMin (x y : ℚ) : ℚ := if x ≤ y then x else y

/-- `_calculate_complexity`: `0.0` when the text has no whitespace-split
tokens; otherwise the weighted sum of average word length, average
sentence length (the sum of token counts of the segments with non-blank
content, divided by the number of ALL `[.!?]+`-split segments) and
technical-term density, capped at `10.0`. -/
def calculateComplexity (t : List Char) : ℚ :=
  if (pyWords t).isEmpty then 0
  else
    ratMin
      ((((pyWords t).map List.length).sum : ℚ) / ((pyWords t).length : ℚ) * (3 / 10) +
        (if (reSplit termSep t).isEmpty then 0
         else ((((reSplit termSep t).filter (fun s => !(strip s).isEmpty)).map
             (fun s => (pyWords s).length)).sum : ℚ) /
           ((reSplit termSep t).length : ℚ)) * (4 / 10) +
        (((pyWords t).countP (fun w => technicalTerms.contains (lowerStr w))) : ℚ) /
          ((pyWords t).length : ℚ) * (3 / 10))
      10

/-! ## `_extract_entities` -/

/-- An entity retained by the extractor (`{'text': ..., 'type': ...,
'confidence': ...}`). -/
structure Entity where
  etext : List Char
  etype : List Char
  confidence : ℚ
deriving DecidableEq

/-- A raw record produced by the NER capability.  `malformed` models a
record that is not a dict, or whose processing raises (both are skipped
by the `isinstance` check and the inner `try`/`except`). -/
inductive EntityRecord where
  | malformed : EntityRecord
  | record (group : Option (List Char)) (rtype : Option (List Char))
      (word : Option (List Char)) (rtext : Option (List Char))
      (score : Option ℚ) : EntityRecord
deriving DecidableEq

/-- Outcome of invoking the NER pipeline: it either raises or returns a
batch of records. -/
inductive NerOutcome where
  | raiseErr : NerOutcome
  | ok (records : List EntityRecord) : NerOutcome

/-- `self.ner_pipeline`: absent (model failed to load) or a function
from text to an outcome. -/
def NerCapability : Type := Option (List Char → NerOutcome)

/-- A constantly-behaving configured capability (used to state the
error-handling claims). -/
def mkNer (o : NerOutcome) : NerCapability := some (fun _ => o)

/-- Python truthiness filter for an optional string (`a or b` keeps `a`
only when it is non-None and non-empty). -/
def truthyStr : Option (List Char) → Option (List Char)
  | some s => if s.isEmpty then none else some s
  | none => none

/-- Stand-in for Python `str(entity)` (the dict repr), used only as the
last fallback for the entity text; no claim depends on its exact value. -/
def strOfRecord : EntityRecord → List Char
  | .malformed => ("malformed record").data
  | .record _ _ _ _ _ => ("entity record").data

/-- Processing of a single entity record: field-naming tolerance via
`or`-chains, missing score defaults to `0.0`, and only scores strictly
above `0.7` are kept. -/
def processRecord : EntityRecord → Option Entity
  | .malformed => none
  | .record g ty w tx sc =>
    let etype := ((truthyStr g).or (truthyStr ty)).getD (("UNKNOWN").data)
    let etext := ((truthyStr w).or (truthyStr tx)).getD
      (strOfRecord (.record g ty w tx sc))
    let escore := sc.getD 0
    if (7 : ℚ) / 10 < escore then some ⟨etext, etype, escore⟩ else none

/-- `_extract_entities`: empty when no pipeline is configured, empty when
the pipeline raises, and otherwise the per-record processing with
malformed records skipped. -/
def extractEntities (ner : NerCapability) (t : List Char) : List Entity :=
  match ner with
  | none => []
  | some f =>
    match f t with
    | .raiseErr => []
    | .ok records => records.filterMap processRecord

/-! ## `extract_requirements` and `analyze_job_description` -/

/-- The requirements dictionary built for a nonempty description. -/
structure Requirements where
  text_requirements : List (List Char)
  individual_requirements : List (List Char)
  entity_requirements : List Entity
  categorized_requirements : List (List Char × List (List Char))
  summary : Summary
deriving DecidableEq

/-- Result of `extract_requirements`: the `{"error": "No job description
provided"}` dictionary for a falsy input, or the requirements record. -/
inductive ExtractResult where
  | error : ExtractResult
  | ok (r : Requirements) : ExtractResult
deriving DecidableEq

/-- The requirements record of `extract_requirements` for a nonempty
input: pattern extraction and entity extraction run on the cleaned text,
list extraction, categorization and the summary on the original text. -/
def reqOf (ner : NerCapability) (t : List Char) : Requirements :=
  { text_requirements := extractTextPatterns (cleanText t)
    individual_requirements := extractIndividualRequirements t
    entity_requirements := extractEntities ner (cleanText t)
    categorized_requirements := categorizeRequirements t
    summary := generateSummary t }

/-- `extract_requirements`. -/
def extractRequirements (ner : NerCapability) (t : List Char) : ExtractResult :=
  if t.isEmpty then ExtractResult.error else ExtractResult.ok (reqOf ner t)

/-- `requirements.get('summary', {}).get('requirement_density', 0)`. -/
def reportDensity : ExtractResult → ℚ
  | .error => 0
  | .ok r => r.summary.requirement_density

/-- `'k' in cats and len(cats['k']) > 0`. -/
def lookupHasItems (m : List (List Char × List (List Char))) (k : List Char) : Bool :=
  match m.lookup k with
  | some l => decide (0 < l.length)
  | none => false

/-- The category-advisory part of `_generate_recommendations`: nothing
for the error result or an empty (falsy) category mapping, otherwise one
fixed message per populated category among technical_skills, experience,
education, in that order. -/
def categoryAdvisories : ExtractResult → List (List Char)
  | .error => []
  | .ok r =>
    if r.categorized_requirements.isEmpty then []
    else
      (if lookupHasItems r.categorized_requirements (("technical_skills").data)
        then [msgTech] else []) ++
      (if lookupHasItems r.categorized_requirements (("experience").data)
        then [msgExp] else []) ++
      (if lookupHasItems r.categorized_requirements (("education").data)
        then [msgEdu] else [])

/-- `_generate_recommendations`: the category advisories followed by
exactly one density advisory. -/
def generateRecommendations (res : ExtractResult) : List (List Char) :=
  categoryAdvisories res ++
    [if (3 : ℚ) / 10 < reportDensity res then msgMany else msgFewer]

/-- The analysis dictionary of `analyze_job_description`. -/
structure Analysis where
  requirements : ExtractResult
  text_length : Nat
  word_count : Nat
  complexity_score : ℚ
  recommendations : List (List Char)
deriving DecidableEq

/-- `analyze_job_description`. -/
def analyzeJobDescription (ner : NerCapability) (t : List Char) : Analysis :=
  { requirements := extractRequirements ner t
    text_length := t.length
    word_count := (pyWords t).length
    complexity_score := calculateComplexity t
    recommendations := generateRecommendations (extractRequirements ner t) }

/-! ## Spec-side definitions used to state refuted claims -/

/-- Modelled from the words of claim C3: the complexity formula with the
average sentence length taken as the mean over the NON-EMPTY
terminator-split segments only (empty segments excluded from both the
sum and the divisor), clamped at 10; empty input yields 0. -/
def claimComplexityC3 (t : List Char) : ℚ :=
  if t.isEmpty then 0
  else
    ratMin
      ((((pyWords t).map List.length).sum : ℚ) / ((pyWords t).length : ℚ) * (3 / 10) +
        ((((reSplit termSep t).filter (fun s => !(strip s).isEmpty)).map
            (fun s => (pyWords s).length)).sum : ℚ) /
          (((reSplit termSep t).filter (fun s => !(strip s).isEmpty)).length : ℚ) * (4 / 10) +
        (((pyWords t).countP (fun w => technicalTerms.contains (lowerStr w))) : ℚ) /
          ((pyWords t).length : ℚ) * (3 / 10))
      10

/-- Modelled from the words of claim C7: a line qualifies when it begins
(after optional indentation) with a bullet, dash, star or number marker,
or begins with at least 4 leading whitespace characters. -/
def claimLineQualifiesC7 (line : List Char) : Bool :=
  (match line.dropWhile pyIsSpace with
   | c :: _ => c == '-' || c == '•' || c == '*' || pyIsDigitCh c
   | [] => false) ||
  decide (4 ≤ (line.takeWhile pyIsSpace).length)

/-! ## Concrete inputs named by the claims -/

/-- The three-bullet end-to-end input of claim C1. -/
def c1input : List Char :=
  ("- 5+ years of experience\n- AWS knowledge required\n- We value teamwork").data

/-- A one-sentence input separating the two sentence-length divisors of
claim C3 (`re.split` on `[.!?]+` yields one non-empty and one empty
segment). -/
def c3input : List Char := ("hi.").data

/-- An input whose pattern extraction differs between the original and
the cleaned text (claim C4): the dollar signs are removed by
`_clean_text`, after which the only segment is shorter than 10. -/
def c4input : List Char := ("$$$$$ skills").data

/-- A line with a single leading space and no bullet/dash/number marker
(claim C7). -/
def c7line : List Char := (" experience skills").data

/-! ## Helper lemmas -/

theorem subset_of_isPrefixOf :
    ∀ {k l : List Char}, k.isPrefixOf l = true → ∀ x ∈ k, x ∈ l := by
  intro k
  induction k with
  | nil => intro l _ x hx; cases hx
  | cons a as ih =>
    intro l hp x hx
    cases l with
    | nil => cases hp
    | cons b bs =>
      rw [List.isPrefixOf, Bool.and_eq_true, beq_iff_eq] at hp
      rcases List.mem_cons.mp hx with h | h
      · exact List.mem_cons.mpr (Or.inl (h.trans hp.1))
      · exact List.mem_cons.mpr (Or.inr (ih hp.2 x h))

theorem subset_of_inStr :
    ∀ {l k : List Char}, inStr k l = true → ∀ x ∈ k, x ∈ l := by
  intro l
  induction l with
  | nil =>
    intro k h x hx
    rw [inStr, List.isEmpty_iff] at h
    subst h; cases hx
  | cons c rest ih =>
    intro k h x hx
    rw [inStr, Bool.or_eq_true] at h
    rcases h with h | h
    · exact subset_of_isPrefixOf h x hx
    · exact List.mem_cons.mpr (Or.inr (ih h x hx))

theorem marker_toNat {c : Char} (h : markerClass c = true) :
    c.toNat < 65 ∨ 90 < c.toNat := by
  simp only [markerClass, pyIsSpace, pyIsDigitCh, Bool.or_eq_true, beq_iff_eq,
    decide_eq_true_eq] at h
  rcases h with
    (((((h | h) | h) | ((((h | h) | h) | h) | h) | h) | h) | h) | h
  all_goals first
  | (subst h; decide)
  | omega

theorem pyToLower_eq_of_marker {c : Char} (h : markerClass c = true) :
    pyToLower c = c := by
  have h2 := marker_toNat h
  have hu : pyIsUpper c = false := by
    simp only [pyIsUpper, decide_eq_false_iff_not, not_and, not_le]
    omega
  simp [pyToLower, hu]

theorem markerClass_of_lower {c : Char} (h : markerClass (pyToLower c) = false) :
    markerClass c = false := by
  by_cases hc : markerClass c = true
  · rw [pyToLower_eq_of_marker hc] at h
    rw [h] at hc; cases hc
  · exact Bool.eq_false_iff.mpr hc

theorem markerClass_of_space {c : Char} (h : pyIsSpace c = true) :
    markerClass c = true := by
  simp [markerClass, h]

theorem mem_dropWhile_self {p : Char → Bool} :
    ∀ {l : List Char} {x : Char}, x ∈ l → p x = false → x ∈ l.dropWhile p := by
  intro l
  induction l with
  | nil => intro x hx; cases hx
  | cons a as ih =>
    intro x hx hpx
    rw [List.dropWhile]
    cases hpa : p a with
    | true =>
      rcases List.mem_cons.mp hx with h | h
      · subst h; rw [hpx] at hpa; cases hpa
      · exact ih h hpx
    | false => simpa using hx

theorem mem_strip {l : List Char} {x : Char} (hx : x ∈ l)
    (hs : pyIsSpace x = false) : x ∈ strip l := by
  unfold strip
  rw [List.mem_reverse]
  exact mem_dropWhile_self (List.mem_reverse.mpr (mem_dropWhile_self hx hs)) hs

theorem kwNonMarker :
    ∀ p ∈ categories, ∀ k ∈ p.2, k.any (fun ch => !markerClass ch) = true := by
  decide

/-- Any candidate whose lowercase form contains a keyword of one of the
six categories has a non-blank remainder after stripping and
marker-dropping (every keyword contains a non-marker character). -/
theorem categoryMatchNonempty {cat : List Char} {kws : List (List Char)}
    {r : List Char} (hc : (cat, kws) ∈ categories)
    (hm : kws.any (fun k => inStr k (lowerStr r)) = true) :
    ((strip r).dropWhile markerClass).isEmpty = false := by
  obtain ⟨k, hk, hin⟩ := List.any_eq_true.mp hm
  have hnm := kwNonMarker (cat, kws) hc k hk
  obtain ⟨ch, hch, hchm⟩ := List.any_eq_true.mp hnm
  have hchm' : markerClass ch = false := by
    cases h : markerClass ch
    · rfl
    · rw [h] at hchm; cases hchm
  have hch2 : ch ∈ lowerStr r := subset_of_inStr hin ch hch
  obtain ⟨c0, hc0, hc0e⟩ := List.mem_map.mp hch2
  have hc0m : markerClass c0 = false := markerClass_of_lower (hc0e ▸ hchm')
  have hc0s : pyIsSpace c0 = false := by
    cases hps : pyIsSpace c0
    · rfl
    · rw [markerClass_of_space hps] at hc0m; cases hc0m
  have hmem := mem_dropWhile_self (mem_strip hc0 hc0s) hc0m
  cases he : ((strip r).dropWhile markerClass).isEmpty
  · rfl
  · rw [List.isEmpty_iff] at he
    rw [he] at hmem; cases hmem

theorem mem_catStep_of_mem {kws : List (List Char)} {acc : List (List Char)}
    {x req : List Char} (hx : x ∈ acc) : x ∈ catStep kws acc req := by
  unfold catStep
  split
  · exact hx
  · split
    · split
      · exact hx
      · split
        · exact hx
        · exact List.mem_append_left _ hx
    · exact hx

theorem mem_foldl_catStep_of_mem {kws : List (List Char)} {x : List Char} :
    ∀ {cands acc : List (List Char)}, x ∈ acc →
      x ∈ List.foldl (catStep kws) acc cands := by
  intro cands
  induction cands with
  | nil => intro acc hx; exact hx
  | cons a as ih => intro acc hx; exact ih (mem_catStep_of_mem hx)

theorem catStep_adds {kws : List (List Char)} {acc : List (List Char)}
    {req : List Char} (hlen : 10 ≤ req.length)
    (hm : kws.any (fun k => inStr k (lowerStr req)) = true)
    (hne : ((strip req).dropWhile markerClass).isEmpty = false) :
    capitalizeFirst ((strip req).dropWhile markerClass) ∈ catStep kws acc req := by
  have h1 : req.isEmpty = false := by
    cases req
    · simp at hlen
    · rfl
  have h0 : (req.isEmpty || decide (req.length < 10)) = false := by
    simp [h1]; omega
  simp only [catStep, h0, Bool.false_eq_true, if_false, hm, if_true, hne]
  by_cases hc : capitalizeFirst ((strip req).dropWhile markerClass) ∈ acc
  · simp [hc]
  · simp [hc]

theorem mem_foldl_catStep_adds {kws : List (List Char)} {req : List Char}
    (hlen : 10 ≤ req.length)
    (hm : kws.any (fun k => inStr k (lowerStr req)) = true)
    (hne : ((strip req).dropWhile markerClass).isEmpty = false) :
    ∀ (cands acc : List (List Char)), req ∈ cands →
      capitalizeFirst ((strip req).dropWhile markerClass) ∈
        List.foldl (catStep kws) acc cands := by
  intro cands
  induction cands with
  | nil => intro acc h; cases h
  | cons a as ih =>
    intro acc h
    rcases List.mem_cons.mp h with h1 | h1
    · subst h1
      rw [List.foldl_cons]
      exact mem_foldl_catStep_of_mem (catStep_adds hlen hm hne)
    · exact ih (catStep kws acc a) h1

theorem nodup_catStep {kws : List (List Char)} {acc : List (List Char)}
    {req : List Char} (h : acc.Nodup) : (catStep kws acc req).Nodup := by
  unfold catStep
  split
  · exact h
  · split
    · split
      · exact h
      · split
        · exact h
        · rename_i hcap
          simp [List.nodup_append, h, hcap]
    · exact h

theorem nodup_categoryItems (kws cands : List (List Char)) :
    (categoryItems kws cands).Nodup := by
  suffices h : ∀ (cs acc : List (List Char)), acc.Nodup →
      (List.foldl (catStep kws) acc cs).Nodup from h cands [] (by simp)
  intro cs
  induction cs with
  | nil => intro acc h; exact h
  | cons a as ih => intro acc h; exact ih _ (nodup_catStep h)

theorem lineCandidate_head_marker {line c : List Char}
    (h : lineCandidate line = some c) :
    ∃ ch rest, line = ch :: rest ∧ markerClass ch = true := by
  unfold lineCandidate at h
  split at h
  · simp at h
  · split at h
    case isTrue hq =>
      cases line with
      | nil => simp [isBulletPoint, isIndented, List.takeWhile] at hq
      | cons ch rest =>
        have hq' : isBulletPoint (ch :: rest) = true ∨
            isIndented (ch :: rest) = true := by
          rw [← Bool.or_eq_true]
          exact hq
        rcases hq' with hb | hi
        · exact ⟨ch, rest, rfl, by simpa [isBulletPoint] using hb⟩
        · have hs : pyIsSpace ch = true := by
            cases hps : pyIsSpace ch
            · simp [isIndented, List.takeWhile, hps] at hi
            · rfl
          exact ⟨ch, rest, rfl, markerClass_of_space hs⟩
    case isFalse => simp at h

theorem countAdv_categoryAdvisories (res : ExtractResult) :
    (categoryAdvisories res).countP (fun r => r == msgMany || r == msgFewer) = 0 := by
  cases res with
  | error => rfl
  | ok r =>
    simp only [categoryAdvisories]
    split
    · rfl
    · rw [List.countP_append, List.countP_append]
      have h1 : ∀ b : Bool,
          (if b then [msgTech] else []).countP
            (fun r => r == msgMany || r == msgFewer) = 0 := by
        intro b; cases b
        · decide
        · decide
      have h2 : ∀ b : Bool,
          (if b then [msgExp] else []).countP
            (fun r => r == msgMany || r == msgFewer) = 0 := by
        intro b; cases b
        · decide
        · decide
      have h3 : ∀ b : Bool,
          (if b then [msgEdu] else []).countP
            (fun r => r == msgMany || r == msgFewer) = 0 := by
        intro b; cases b
        · decide
        · decide
      rw [h1, h2, h3]

/-! ## Claim theorems -/

/-- C1 (counterexample): on the three-bullet input, the list detector
does NOT produce the marker-stripped first line `5+ years of experience`
(the digit `5` falls inside the marker-stripping class and is removed),
and it DOES produce a candidate from the third line (`team` is a
requirement indicator and is contained in `teamwork`); accordingly the
`experience` category holds `+ years of experience`, not
`5+ years of experience`. -/
theorem c1_counterexample :
    ("5+ years of experience").data ∉ (reqOf none c1input).individual_requirements ∧
    ("We value teamwork").data ∈ (reqOf none c1input).individual_requirements ∧
    ((reqOf none c1input).categorized_requirements.lookup (("experience").data) =
      some [("+ years of experience").data]) := by
  refine ⟨by decide, by decide, by decide⟩

/-- C1 (amended): on the three-bullet input, `individual_requirements`
is exactly `['+ years of experience', 'AWS knowledge required',
'We value teamwork']` (capitalized, marker-stripped — the stripping also
removes the leading digit of the first line, and the third line is kept
because `team` is an indicator term), `categorized_requirements`
maps `experience` to `['+ years of experience']` and `technical_skills`
to `['AWS knowledge required']`. -/
theorem c1_amended :
    (reqOf none c1input).individual_requirements =
      [("+ years of experience").data, ("AWS knowledge required").data,
        ("We value teamwork").data] ∧
    ((reqOf none c1input).categorized_requirements.lookup (("experience").data) =
      some [("+ years of experience").data]) ∧
    ((reqOf none c1input).categorized_requirements.lookup (("technical_skills").data) =
      some [("AWS knowledge required").data]) ∧
    extractRequirements none c1input = ExtractResult.ok (reqOf none c1input) := by
  refine ⟨by decide, by decide, by decide, rfl⟩

/-- C2 (confirmed): on the empty input, `extract_requirements` returns
the report-level error indicator (the `no description provided` result),
and `analyze_job_description` still returns a well-formed analysis (zero
counts, zero complexity, the single low-density recommendation) without
raising — in this embedding every function is total, and the error case
is the explicit `error` result rather than an exception. -/
theorem c2_empty_input (ner : NerCapability) :
    extractRequirements ner [] = ExtractResult.error ∧
    (analyzeJobDescription ner []).requirements = ExtractResult.error ∧
    (analyzeJobDescription ner []).text_length = 0 ∧
    (analyzeJobDescription ner []).word_count = 0 ∧
    (analyzeJobDescription ner []).complexity_score = 0 ∧
    (analyzeJobDescription ner []).recommendations = [msgFewer] := by
  refine ⟨rfl, rfl, rfl, rfl, rfl, ?_⟩
  show generateRecommendations (extractRequirements ner []) = [msgFewer]
  have h : extractRequirements ner ([] : List Char) = ExtractResult.error := rfl
  rw [h]
  show categoryAdvisories ExtractResult.error ++
      [if (3 : ℚ) / 10 < reportDensity ExtractResult.error then msgMany else msgFewer] =
    [msgFewer]
  have hlt : ¬ ((3 : ℚ) / 10 < reportDensity ExtractResult.error) := by
    simp only [reportDensity]
    norm_num
  rw [if_neg hlt]
  rfl

/-- C4 (counterexample): on `c4input` the summary's estimate is 1 (the
pattern detector fires on the ORIGINAL text), while the report's
`text_requirements` (computed from the cleaned text) and
`individual_requirements` are both empty, so the estimate is not the sum
of the two report list lengths. -/
theorem c4_counterexample :
    extractRequirements none c4input = ExtractResult.ok (reqOf none c4input) ∧
    (reqOf none c4input).summary.estimated_requirements = 1 ∧
    (reqOf none c4input).text_requirements.length = 0 ∧
    (reqOf none c4input).individual_requirements.length = 0 := by
  refine ⟨rfl, by decide, by decide, by decide⟩

/-- C4 (amended): for every report, `estimated_requirements` equals the
length of the pattern extraction RE-RUN ON THE ORIGINAL (uncleaned)
text plus the length of the report's `individual_requirements`; the
first addend may differ from the length of the report's
`text_requirements`, which is computed from the cleaned text. -/
theorem c4_amended (ner : NerCapability) (t : List Char) (r : Requirements)
    (h : extractRequirements ner t = ExtractResult.ok r) :
    r.summary.estimated_requirements =
      (extractTextPatterns t).length + r.individual_requirements.length := by
  unfold extractRequirements at h
  split at h
  · cases h
  · cases h
    rfl

/-- Witness for C4 at the concrete input `c4input`. -/
theorem c4_amended_witness :
    (reqOf none c4input).summary.estimated_requirements =
      (extractTextPatterns c4input).length +
        (reqOf none c4input).individual_requirements.length :=
  c4_amended none c4input (reqOf none c4input) rfl

/-- C5 (counterexample): the candidate `Use git` matches the `tools`
keyword `git`, yet the categorizer output is empty (candidates shorter
than 10 characters are skipped), so no category list contains it. -/
theorem c5_counterexample :
    categorizeCandidates [("Use git").data] = [] ∧
    ("git").data ∈ (["git", "jira", "confluence", "slack", "teams"]).map String.data ∧
    inStr (("git").data) (lowerStr (("Use git").data)) = true := by
  refine ⟨by decide, by decide, by decide⟩

/-- C5 (amended): every candidate OF LENGTH AT LEAST 10 whose lowercase
form contains a keyword of a category appears in that category's output
list, marker-stripped and first-letter-capitalized; each output list is
deduplicated (no duplicates within a category), and categories with no
matched items are absent from the output mapping. -/
theorem c5_amended (cands : List (List Char)) (cat : List Char)
    (kws : List (List Char)) (req : List Char)
    (hc : (cat, kws) ∈ categories) (hreq : req ∈ cands)
    (hlen : 10 ≤ req.length)
    (hm : kws.any (fun k => inStr k (lowerStr req)) = true) :
    capitalizeFirst ((strip req).dropWhile markerClass) ∈ categoryItems kws cands ∧
    (cat, categoryItems kws cands) ∈ categorizeCandidates cands ∧
    (categoryItems kws cands).Nodup ∧
    ∀ p ∈ categorizeCandidates cands, p.2 ≠ [] := by
  have hne := categoryMatchNonempty hc hm
  have h1 : capitalizeFirst ((strip req).dropWhile markerClass) ∈
      categoryItems kws cands :=
    mem_foldl_catStep_adds hlen hm hne cands [] hreq
  refine ⟨h1, ?_, nodup_categoryItems kws cands, ?_⟩
  · apply List.mem_filter.mpr
    refine ⟨List.mem_map.mpr ⟨(cat, kws), hc, rfl⟩, ?_⟩
    have h2 : categoryItems kws cands ≠ [] := List.ne_nil_of_mem h1
    simp [List.isEmpty_iff, h2]
  · intro p hp
    have h3 := (List.mem_filter.mp hp).2
    intro hnil
    rw [hnil] at h3
    simp at h3

/-- Witness for C5 at a concrete tools candidate. -/
theorem c5_amended_witness :
    capitalizeFirst ((strip (("uses git daily now").data)).dropWhile markerClass) ∈
      categoryItems ((["git", "jira", "confluence", "slack", "teams"]).map String.data)
        [("uses git daily now").data] ∧
    (("tools").data,
      categoryItems ((["git", "jira", "confluence", "slack", "teams"]).map String.data)
        [("uses git daily now").data]) ∈
      categorizeCandidates [("uses git daily now").data] ∧
    (categoryItems ((["git", "jira", "confluence", "slack", "teams"]).map String.data)
        [("uses git daily now").data]).Nodup ∧
    ∀ p ∈ categorizeCandidates [("uses git daily now").data], p.2 ≠ [] :=
  c5_amended _ _ _ _ (by decide) (by decide) (by decide) (by decide)

/-- C6 (counterexample): no candidate list whatsoever can make the
categorizer emit the tag `languages` — the extractor's own taxonomy has
only six categories (`config.py` declares eight, but
`_categorize_requirements` uses the six-entry `self.categories`), so the
claimed producibility of all eight tags fails for `languages` (and
likewise `industries`). -/
theorem c6_counterexample :
    ¬ ∃ (cands : List (List Char)) (l : List (List Char)),
      (("languages").data, l) ∈ categorizeCandidates cands := by
  rintro ⟨cands, l, hmem⟩
  obtain ⟨hm, _⟩ := List.mem_filter.mp hmem
  obtain ⟨q, hq, he⟩ := List.mem_map.mp hm
  have h1 : q.1 = ("languages").data := (Prod.ext_iff.mp he).1
  have h2 : q.1 ∈ categories.map Prod.fst := List.mem_map.mpr ⟨q, hq, rfl⟩
  rw [h1] at h2
  revert h2
  decide

/-- C6 (amended): every key of the categorizer's output belongs to the
fixed closed set of the SIX hard-coded categories {experience,
education, technical_skills, soft_skills, tools, methodologies}, and
each of these six tags is producible by some candidate list. -/
theorem c6_amended :
    (∀ (cands : List (List Char)) (p : List Char × List (List Char)),
      p ∈ categorizeCandidates cands → p.1 ∈ categories.map Prod.fst) ∧
    (∀ name ∈ categories.map Prod.fst,
      ∃ (cands l : List (List Char)), (name, l) ∈ categorizeCandidates cands) := by
  constructor
  · intro cands p hp
    obtain ⟨hm, _⟩ := List.mem_filter.mp hp
    obtain ⟨q, hq, he⟩ := List.mem_map.mp hm
    have h1 : q.1 = p.1 := (Prod.ext_iff.mp he).1
    rw [← h1]
    exact List.mem_map.mpr ⟨q, hq, rfl⟩
  · intro name hname
    have h : name = ("experience").data ∨ name = ("education").data ∨
        name = ("technical_skills").data ∨ name = ("soft_skills").data ∨
        name = ("tools").data ∨ name = ("methodologies").data := by
      simpa [categories] using hname
    rcases h with h | h | h | h | h | h
    · exact ⟨[("several years needed").data], [("Several years needed").data],
        by subst h; decide⟩
    · exact ⟨[("holds a phd in math").data], [("Holds a phd in math").data],
        by subst h; decide⟩
    · exact ⟨[("uses python daily").data], [("Uses python daily").data],
        by subst h; decide⟩
    · exact ⟨[("great teamwork here").data], [("Great teamwork here").data],
        by subst h; decide⟩
    · exact ⟨[("uses git daily now").data], [("Uses git daily now").data],
        by subst h; decide⟩
    · exact ⟨[("we follow scrum here").data], [("We follow scrum here").data],
        by subst h; decide⟩

/-- Witness for C6: the key-closure part applied at a concrete
categorizer run. -/
theorem c6_amended_witness :
    (("soft_skills").data, [("Great teamwork here").data]).1 ∈
      categories.map Prod.fst :=
  c6_amended.1 [("great teamwork here").data]
    (("soft_skills").data, [("Great teamwork here").data]) (by decide)

/-- C7 (counterexample): the line consisting of one leading space and
`experience skills` begins with no bullet/dash/number marker and has
fewer than 4 leading whitespace characters, yet the list detector
produces the candidate `Experience skills` from it (the bullet-marker
regex class contains `\s`, so a single leading space qualifies the
line). -/
theorem c7_counterexample :
    claimLineQualifiesC7 c7line = false ∧
    extractIndividualRequirements c7line = [("Experience skills").data] := by
  refine ⟨by decide, by decide⟩

/-- C7 (amended): the list detector produces a candidate from a physical
line only if the line's FIRST character lies in the marker class
(bullet, dash, star, digit, period, closing parenthesis OR ANY
whitespace character) — a line whose first character is anything else
never contributes; a single leading space already qualifies. -/
theorem c7_amended (t : List Char) (c : List Char)
    (hc : c ∈ extractIndividualRequirements t) :
    ∃ line, line ∈ List.splitOn '\n' t ∧ lineCandidate line = some c ∧
      ∃ ch rest, line = ch :: rest ∧ markerClass ch = true := by
  obtain ⟨line, hline, hcand⟩ := List.mem_filterMap.mp hc
  exact ⟨line, hline, hcand, lineCandidate_head_marker hcand⟩

/-- Witness for C7 at the one-space line. -/
theorem c7_amended_witness :
    ∃ line, line ∈ List.splitOn '\n' c7line ∧
      lineCandidate line = some (("Experience skills").data) ∧
      ∃ ch rest, line = ch :: rest ∧ markerClass ch = true :=
  c7_amended c7line (("Experience skills").data) (by decide)

/-- C8 (confirmed): entity extraction absorbs every fault: a missing
capability and a raising capability both yield the empty list, and a
malformed record in a batch is skipped while the remaining records are
still processed. -/
theorem c8_entity_faults (t : List Char) (rest : List EntityRecord) :
    extractEntities none t = [] ∧
    extractEntities (mkNer NerOutcome.raiseErr) t = [] ∧
    extractEntities (mkNer (NerOutcome.ok (EntityRecord.malformed :: rest))) t =
      extractEntities (mkNer (NerOutcome.ok rest)) t := by
  refine ⟨rfl, rfl, rfl⟩

/-- C9 (confirmed): the summary's requirement density always lies in
[0, 1], and it is 0 whenever the sentence count is 0 — the zero-sentence
case takes the guarded `else 0` branch, so no division fault can
occur (the embedding is total). -/
theorem c9_density_bounds (t : List Char) :
    0 ≤ (generateSummary t).requirement_density ∧
    (generateSummary t).requirement_density ≤ 1 ∧
    ((generateSummary t).total_sentences = 0 →
      (generateSummary t).requirement_density = 0) := by
  have hd : (generateSummary t).requirement_density =
      (if (summarySentences t).isEmpty then 0
       else (summaryReqCount t : ℚ) / ((summarySentences t).length : ℚ)) := rfl
  have ht : (generateSummary t).total_sentences = (summarySentences t).length := rfl
  rw [hd, ht]
  cases he : (summarySentences t).isEmpty with
  | true => simp
  | false =>
    have hne : summarySentences t ≠ [] := by
      intro h0
      rw [h0] at he
      cases he
    have hlen : 0 < (summarySentences t).length := List.length_pos.mpr hne
    have hcount : summaryReqCount t ≤ (summarySentences t).length :=
      List.countP_le_length _
    simp only [Bool.false_eq_true, if_false]
    refine ⟨div_nonneg (Nat.cast_nonneg _) (Nat.cast_nonneg _), ?_, ?_⟩
    · rw [div_le_one (by exact_mod_cast hlen)]
      exact_mod_cast hcount
    · intro h0
      omega

/-- Witness for C9: the zero-sentence clause at the empty input. -/
theorem c9_density_bounds_witness :
    (generateSummary ([] : List Char)).requirement_density = 0 :=
  (c9_density_bounds []).2.2 (by decide)

/-- C10 (confirmed): for every input — including the empty one, whose
extraction result is the error indicator — the recommendation list is
non-empty, its final element is the density advisory (`many
requirements` when the report density exceeds 0.3, `fewer requirements`
otherwise), and that advisory occurs exactly once in the list. -/
theorem c10_recommendations (ner : NerCapability) (t : List Char) :
    (analyzeJobDescription ner t).recommendations ≠ [] ∧
    (analyzeJobDescription ner t).recommendations.getLast? =
      some (if (3 : ℚ) / 10 < reportDensity (extractRequirements ner t)
        then msgMany else msgFewer) ∧
    ((analyzeJobDescription ner t).recommendations.countP
      (fun r => r == msgMany || r == msgFewer)) = 1 := by
  have hrec : (analyzeJobDescription ner t).recommendations =
      categoryAdvisories (extractRequirements ner t) ++
        [if (3 : ℚ) / 10 < reportDensity (extractRequirements ner t)
          then msgMany else msgFewer] := rfl
  refine ⟨?_, ?_, ?_⟩
  · rw [hrec]
    simp
  · rw [hrec]
    exact List.getLast?_concat _
  · rw [hrec, List.countP_append, countAdv_categoryAdvisories]
    have hone : ([if (3 : ℚ) / 10 < reportDensity (extractRequirements ner t)
          then msgMany else msgFewer]).countP
        (fun r => r == msgMany || r == msgFewer) = 1 := by
      split
      · decide
      · decide
    rw [hone]

theorem ratMin_of_le {x y : ℚ} (h : x ≤ y) : ratMin x y = x := if_pos h

/-- C3 (counterexample): on the input `hi.` the program's complexity is
1.1 — the sentence-length divisor is the number of ALL terminator-split
segments (here 2: `hi` and the empty trailing segment) — while the
claimed formula (divisor = number of non-empty segments, here 1) gives
1.3. -/
theorem c3_counterexample :
    calculateComplexity c3input = 11 / 10 ∧
    claimComplexityC3 c3input = 13 / 10 ∧
    calculateComplexity c3input ≠ claimComplexityC3 c3input := by
  have hw : pyWords c3input = [("hi.").data] := by decide
  have hwE : (pyWords c3input).isEmpty = false := by decide
  have hsum : (([("hi.").data] : List (List Char)).map List.length).sum = 3 := by
    decide
  have hsplitE : (reSplit termSep c3input).isEmpty = false := by decide
  have hlen2 : (reSplit termSep c3input).length = 2 := by decide
  have hfilter : (reSplit termSep c3input).filter (fun s => !(strip s).isEmpty) =
      [("hi").data] := by decide
  have hmapsum : (([("hi").data] : List (List Char)).map
      (fun s => (pyWords s).length)).sum = 1 := by decide
  have hcount : (pyWords c3input).countP
      (fun w => technicalTerms.contains (lowerStr w)) = 0 := by decide
  have htE : c3input.isEmpty = false := by decide
  have h1 : calculateComplexity c3input = 11 / 10 := by
    unfold calculateComplexity
    rw [if_neg (by simp [hwE] : ¬ ((pyWords c3input).isEmpty = true))]
    rw [if_neg (by simp [hsplitE] : ¬ ((reSplit termSep c3input).isEmpty = true))]
    rw [hcount, hfilter, hmapsum, hlen2, hw, hsum]
    rw [ratMin_of_le (by norm_num)]
    norm_num
  have h2 : claimComplexityC3 c3input = 13 / 10 := by
    unfold claimComplexityC3
    rw [if_neg (by simp [htE] : ¬ (c3input.isEmpty = true))]
    rw [hcount, hfilter, hmapsum, hw, hsum]
    rw [ratMin_of_le (by norm_num)]
    norm_num
  exact ⟨h1, h2, by rw [h1, h2]; norm_num⟩

/-- C3 (amended): the complexity of the empty string is 0, and for every
input with at least one whitespace token the score is the weighted
formula clamped at 10, where the average sentence length divides the
token-count sum of the non-blank segments by the TOTAL number of
terminator-split segments (blank segments included in the divisor). -/
theorem c3_amended :
    calculateComplexity [] = 0 ∧
    ∀ t : List Char, pyWords t ≠ [] →
      calculateComplexity t =
        ratMin
          ((((pyWords t).map List.length).sum : ℚ) / ((pyWords t).length : ℚ) *
              (3 / 10) +
            (if (reSplit termSep t).isEmpty then 0
             else ((((reSplit termSep t).filter (fun s => !(strip s).isEmpty)).map
                 (fun s => (pyWords s).length)).sum : ℚ) /
               ((reSplit termSep t).length : ℚ)) * (4 / 10) +
            (((pyWords t).countP
                (fun w => technicalTerms.contains (lowerStr w))) : ℚ) /
              ((pyWords t).length : ℚ) * (3 / 10))
          10 := by
  constructor
  · rfl
  · intro t ht
    unfold calculateComplexity
    rw [if_neg (fun h => ht (List.isEmpty_iff.mp h))]

/-- Witness for C3 at the one-token input `a`. -/
theorem c3_amended_witness :
    pyWords (("a").data) ≠ [] ∧
    calculateComplexity (("a").data) =
      ratMin
        ((((pyWords (("a").data)).map List.length).sum : ℚ) /
            ((pyWords (("a").data)).length : ℚ) * (3 / 10) +
          (if (reSplit termSep (("a").data)).isEmpty then 0
           else ((((reSplit termSep (("a").data)).filter
               (fun s => !(strip s).isEmpty)).map
               (fun s => (pyWords s).length)).sum : ℚ) /
             ((reSplit termSep (("a").data)).length : ℚ)) * (4 / 10) +
          (((pyWords (("a").data)).countP
              (fun w => technicalTerms.contains (lowerStr w))) : ℚ) /
            ((pyWords (("a").data)).length : ℚ) * (3 / 10))
        10 :=
  ⟨by decide, c3_amended.2 (("a").data) (by decide)⟩
